import Mathlib

/-
Verification development for the avfilter wrapper module of the rsmpeg
repository (src/avfilter/avfilter.rs). The external FFmpeg engine is
abstracted: each foreign call's outcome (an integer status, or the pointers
it writes back) is a parameter of the embedded function, and the embedding
captures exactly how the Rust wrapper routes that outcome — which error
variant it produces, which pointers it passes, and which teardown (Drop)
effects its body emits on each path.
-/

namespace Rsmpeg

/-- Identity of one non-null engine-side pointer in the shallow embedding.
Nullable pointers are modelled as `Option Ptr` with `none` for null. -/
structure Ptr where
  id : Nat
deriving DecidableEq, Repr

/-- Error enumeration of the crate, restricted to the variants reachable
from the avfilter module. The variants up to CreateFilterError appear
literally in src/avfilter/avfilter.rs; ConfigurationInvalid and
GraphParseFailed stand for the conversions applied by the question-mark
operator in config and parse_ptr, whose From implementation lives in the
crate error module (not under src) and is modelled from the spec taxonomy. -/
inductive RsmpegError
  | FilterNotFound
  | SetPropertyError
  | BufferSrcAddFrameError
  | BufferSinkDrainError
  | BufferSinkEofError
  | BufferSinkGetFrameError
  | CreateFilterError
  | ConfigurationInvalid
  | GraphParseFailed
deriving DecidableEq, Repr

/-- Modelled from the spec: the shared upgrade helper on integer engine
status codes (the shared module is not under src). Spec section 6: status
zero or the success sentinel means success and negative values are error
codes, so a nonnegative status upgrades to ok and a negative one to the
error carrying the code itself. -/
def upgrade (ret : Int) : Except Int Int :=
  if 0 ≤ ret then Except.ok ret else Except.error ret

/-- Engine constant: the try-again status AVERROR(EAGAIN). -/
def AVERROR_EAGAIN : Int := -11

/-- Engine constant: the end-of-stream status AVERROR_EOF. -/
def AVERROR_EOF : Int := -541478725

/-- Observable teardown effects emitted by the Drop code paths of the
wrappers: releasing one pad-list chain head, or releasing one frame. -/
inductive Event
  | freeInOut (p : Ptr)
  | freeFrame (p : Ptr)
deriving DecidableEq, Repr

/-- Shallow stand-in for an avutil frame object; only its identity matters
for the avfilter module. -/
structure AVFrame where
  ptr : Ptr
deriving DecidableEq, Repr

/-- Modelled from the spec: the avutil frame Drop implementation (not under
src) releases the frame buffer exactly once when the owning value goes out
of scope. -/
def AVFrame.dropEvents (f : AVFrame) : List Event := [Event.freeFrame f.ptr]

/-- Shallow stand-in for a live filter context node inside a graph. -/
structure AVFilterContext where
  ptr : Ptr
deriving DecidableEq, Repr

/-- Outcome record of buffersrc_add_frame_flags: the frame pointer handed
to the native call (none models the null pointer), the Rust return value,
and the teardown events of the function body (the by-value frame is dropped
when the function returns, on both paths). -/
structure SrcCall where
  passedPtr : Option Ptr
  result : Except RsmpegError Unit
  frees : List Event
deriving Repr

/-- Embedding of AVFilterContext::buffersrc_add_frame_flags
(src/avfilter/avfilter.rs lines 50-63). The engine status returned by
av_buffersrc_add_frame_flags is abstracted as ret; flags is forwarded to
the engine and only influences ret. A Some frame passes its pointer, None
passes the null pointer; any engine error is mapped to
BufferSrcAddFrameError; the frame, taken by value, is dropped at scope end
on both paths. -/
def buffersrc_add_frame_flags (ret : Int) (frame : Option AVFrame) : SrcCall :=
  let p := frame.map (fun f => f.ptr)
  let drops := match frame with
    | some f => f.dropEvents
    | none => []
  match upgrade ret with
  | Except.ok _ => { passedPtr := p, result := Except.ok (), frees := drops }
  | Except.error _ =>
      { passedPtr := p
        result := Except.error RsmpegError.BufferSrcAddFrameError
        frees := drops }

/-- Embedding of AVFilterContext::buffersink_get_frame
(src/avfilter/avfilter.rs lines 65-75): a nonnegative engine status returns
the filled frame; the error code AVERROR_EAGAIN maps to
BufferSinkDrainError, AVERROR_EOF to BufferSinkEofError, and every other
error code to BufferSinkGetFrameError, in the order the source matches. -/
def buffersink_get_frame (ret : Int) (frame : AVFrame) : Except RsmpegError AVFrame :=
  match upgrade ret with
  | Except.ok _ => Except.ok frame
  | Except.error e =>
      if e = AVERROR_EAGAIN then Except.error RsmpegError.BufferSinkDrainError
      else if e = AVERROR_EOF then Except.error RsmpegError.BufferSinkEofError
      else Except.error RsmpegError.BufferSinkGetFrameError

/-- Modelled from the spec: the crate error conversion applied by the
question-mark operator at the config call site (the error module is not
under src); spec sections 4.4 and 7 name the kind ConfigurationInvalid. -/
def configErrKind (_code : Int) : RsmpegError := RsmpegError.ConfigurationInvalid

/-- Embedding of AVFilterGraph::config (src/avfilter/avfilter.rs lines
163-168): the status of avfilter_graph_config is upgraded, a negative
status propagates as an error through the question-mark operator, success
returns unit. -/
def config (ret : Int) : Except RsmpegError Unit :=
  match upgrade ret with
  | Except.ok _ => Except.ok ()
  | Except.error e => Except.error (configErrKind e)

/-- Engine static filter registry, abstracted as an association list from
filter names to entries of the static table; avfilter_get_by_name returns
the entry pointer of the first match, or null when no kind of that name is
registered. -/
def avfilter_get_by_name (registry : List (String × Ptr)) (name : String) : Option Ptr :=
  (registry.find? (fun e => e.1 == name)).map (fun e => e.2)

/-- Embedding of AVFilter::get_by_name (src/avfilter/avfilter.rs lines
18-23): a null engine pointer upgrades to none and becomes the
FilterNotFound error, a non-null pointer becomes the returned handle. -/
def get_by_name (registry : List (String × Ptr)) (name : String) : Except RsmpegError Ptr :=
  match avfilter_get_by_name registry name with
  | some p => Except.ok p
  | none => Except.error RsmpegError.FilterNotFound

/-- Embedding of the Drop implementation of AVFilter
(src/avfilter/avfilter.rs lines 26-30): it does nothing, the filter table
entry is static, so a handle carries no release obligation. -/
def AVFilter.dropEvents : List Event := []

/-- Shallow stand-in for the wrapped AVFilterInOut head pointer; the value
owns the whole engine-allocated chain reachable from it. -/
structure AVFilterInOut where
  ptr : Ptr
deriving DecidableEq, Repr

/-- Embedding of Drop for AVFilterInOut (src/avfilter/avfilter.rs lines
96-103): one call to avfilter_inout_free on the head pointer, which
releases the entire chain once. -/
def AVFilterInOut.dropEvents (x : AVFilterInOut) : List Event :=
  [Event.freeInOut x.ptr]

/-- Modelled from the spec: the crate error conversion applied by the
question-mark operator at the parse_ptr call site (the error module is not
under src); spec section 7 names the kind GraphParseFailed. -/
def parseErrKind (_code : Int) : RsmpegError := RsmpegError.GraphParseFailed

/-- Outcome record of parse_ptr: the Rust return value plus the teardown
events the function body itself emits for its two by-value pad-list
arguments. -/
structure ParseCall where
  result : Except RsmpegError (Option AVFilterInOut × Option AVFilterInOut)
  frees : List Event
deriving Repr

/-- Embedding of AVFilterGraph::parse_ptr (src/avfilter/avfilter.rs lines
118-160). engine abstracts avfilter_graph_parse_ptr: on success it yields
the possibly-null fresh unresolved input and output list heads written back
through the in-out pointer arguments, on failure the negative status. On
the error path the question-mark operator returns early and Rust then drops
the two by-value arguments, so each chain is freed once by Drop. On the
success path the source calls into_raw on both arguments, disarming their
Drop, and wraps each non-null returned head into a fresh caller-owned
AVFilterInOut. -/
def parse_ptr (engine : Except Int (Option Ptr × Option Ptr))
    (inputs outputs : AVFilterInOut) : ParseCall :=
  match engine with
  | Except.error e =>
      { result := Except.error (parseErrKind e)
        frees := inputs.dropEvents ++ outputs.dropEvents }
  | Except.ok (ni, no) =>
      { result := Except.ok (ni.map AVFilterInOut.mk, no.map AVFilterInOut.mk)
        frees := [] }

/-- Engine allocator state used by AVFilterInOut::new: a fresh-pointer
counter and the engine-owned duplicated name strings. -/
structure Alloc where
  next : Nat
  strings : List (Ptr × String)
deriving DecidableEq, Repr

/-- Allocator well-formedness: every string pointer handed out so far lies
below the fresh counter. -/
def Alloc.wf (a : Alloc) : Prop :=
  ∀ e ∈ a.strings, e.1.id < a.next

instance (a : Alloc) : Decidable a.wf := by
  unfold Alloc.wf; infer_instance

/-- Engine av_strdup: duplicates the caller string into fresh engine-owned
memory and returns the fresh pointer together with the grown allocator. -/
def av_strdup (a : Alloc) (s : String) : Ptr × Alloc :=
  (⟨a.next⟩, { next := a.next + 1, strings := (⟨a.next⟩, s) :: a.strings })

/-- Engine-side record contents of one AVFilterInOut node as written by
AVFilterInOut::new. -/
structure InOutRec where
  name : Ptr
  filter_ctx : Ptr
  pad_idx : Int
  next : Option Ptr
deriving DecidableEq, Repr

/-- Embedding of AVFilterInOut::new (src/avfilter/avfilter.rs lines 82-93):
duplicate the name via av_strdup, allocate the inout node via
avfilter_inout_alloc, then fill name with the duplicate, filter_ctx with
the given node, pad_idx with 0 and next with null. Returns the filled
record, the node pointer and the final allocator. -/
def AVFilterInOut.new (a : Alloc) (name : String) (filter_context : AVFilterContext) :
    InOutRec × Ptr × Alloc :=
  let dup := av_strdup a name
  let inoutPtr : Ptr := ⟨dup.2.next⟩
  let a2 : Alloc := { next := dup.2.next + 1, strings := dup.2.strings }
  ({ name := dup.1, filter_ctx := filter_context.ptr, pad_idx := 0, next := none },
   inoutPtr, a2)

/-- Graph container contents relevant to handle stability: the engine node
table, in creation order. -/
abbrev Graph := List Ptr

/-- The wrapper operations that touch the graph container through a shared
Rust reference in the source: create_filter_context (lines 172-199),
parse_ptr (lines 118-160) and config (lines 163-168) all take an immutable
self reference. The payload abstracts what the engine creates during the
call: the new node of create_filter_context (none when the engine rejects
and releases the half-built node), or the nodes avfilter_graph_parse_ptr
created for the textual segment (on failure, the partially created ones,
per the engine documentation quoted in the source). -/
inductive SharedRefOp
  | createFilterContext (node : Option Ptr)
  | parsePtrOp (nodes : List Ptr)
  | configOp
deriving DecidableEq, Repr

/-- Effect of one shared-reference operation on the engine node table:
create appends its node when the engine accepted it, parse appends the
nodes the engine created, config only validates links and formats. No
operation removes a node — the wrapper exposes no removal API. -/
def applyOp (g : Graph) : SharedRefOp → Graph
  | SharedRefOp.createFilterContext (some node) => g ++ [node]
  | SharedRefOp.createFilterContext none => g
  | SharedRefOp.parsePtrOp nodes => g ++ nodes
  | SharedRefOp.configOp => g

/-- Effect of a whole sequence of shared-reference operations. -/
def applyOps (g : Graph) (ops : List SharedRefOp) : Graph :=
  List.foldl applyOp g ops

/-- Discriminator for the node-instantiation operation. -/
def SharedRefOp.isCreate : SharedRefOp → Bool
  | SharedRefOp.createFilterContext _ => true
  | _ => false

/-- Borrow-discipline state for one graph container: whether the container
is still alive and which instantiated node handles currently hold its
shared borrow. An AVFilterContextMut value is modelled by the node pointer
it wraps; its lifetime parameter ties it to the container borrow taken by
create_filter_context (src/avfilter/avfilter.rs lines 171-199). -/
structure BorrowSt where
  graphAlive : Bool
  liveHandles : List Ptr
deriving DecidableEq, Repr

/-- Steps of the borrow discipline the Rust signatures enforce: a handle
can be created only while the container is alive (create_filter_context
borrows self for the handle lifetime), a handle borrow can end, and the
container can be dropped only once no handle borrows it (the borrow checker
rejects dropping a graph with an outstanding borrow). -/
inductive BorrowStep : BorrowSt → BorrowSt → Prop
  | create (s : BorrowSt) (h : Ptr) (alive : s.graphAlive = true) :
      BorrowStep s { graphAlive := true, liveHandles := h :: s.liveHandles }
  | endHandle (s : BorrowSt) (h : Ptr) :
      BorrowStep s { graphAlive := s.graphAlive, liveHandles := s.liveHandles.erase h }
  | dropGraph (s : BorrowSt) (noBorrow : s.liveHandles = []) :
      BorrowStep s { graphAlive := false, liveHandles := [] }

/-- Initial state: a freshly allocated container with no handles. -/
def BorrowSt.init : BorrowSt := { graphAlive := true, liveHandles := [] }

/-- Reachability of the borrow discipline from the fresh container. -/
def BorrowReachable (s : BorrowSt) : Prop :=
  Relation.ReflTransGen BorrowStep BorrowSt.init s

/-- Helper invariant: once the container is dead, no handle is live. -/
theorem borrow_invariant (s : BorrowSt) (hr : BorrowReachable s) :
    s.graphAlive = false → s.liveHandles = [] := by
  induction hr with
  | refl => intro h; simp [BorrowSt.init] at h
  | tail _ hstep ih =>
      cases hstep with
      | create h alive => intro hcontra; simp at hcontra
      | endHandle h =>
          intro hdead
          simp only at hdead ⊢
          rw [ih hdead]
          rfl
      | dropGraph noBorrow => intro _; rfl

/-- Exhaustive description of buffersink_get_frame as the spec states the
outcome mapping. C2 is settled by comparing the embedding against it. -/
def buffersink_spec (ret : Int) (frame : AVFrame) : Except RsmpegError AVFrame :=
  if 0 ≤ ret then Except.ok frame
  else if ret = AVERROR_EAGAIN then Except.error RsmpegError.BufferSinkDrainError
  else if ret = AVERROR_EOF then Except.error RsmpegError.BufferSinkEofError
  else Except.error RsmpegError.BufferSinkGetFrameError

/-- C2: pulling from a sink exposes four distinguishable outcomes: success
returns the frame, the try-again code maps to BufferSinkDrainError, the
end-of-stream code maps to BufferSinkEofError, every other engine error
maps to BufferSinkGetFrameError, and the drain, eof and generic variants
are pairwise distinct (never collapsed). -/
theorem buffersink_get_frame_outcomes (ret : Int) (frame : AVFrame) :
    buffersink_get_frame ret frame = buffersink_spec ret frame ∧
    RsmpegError.BufferSinkDrainError ≠ RsmpegError.BufferSinkEofError ∧
    RsmpegError.BufferSinkDrainError ≠ RsmpegError.BufferSinkGetFrameError ∧
    RsmpegError.BufferSinkEofError ≠ RsmpegError.BufferSinkGetFrameError := by
  refine ⟨?_, by decide, by decide, by decide⟩
  unfold buffersink_get_frame buffersink_spec upgrade
  by_cases h : 0 ≤ ret <;> simp [h]

/-- C5: configuring the graph succeeds with no value exactly when the
engine accepts the topology (nonnegative status), and a rejected topology
(negative status) fails with the ConfigurationInvalid kind. -/
theorem config_outcomes (ret : Int) :
    (0 ≤ ret → config ret = Except.ok ()) ∧
    (ret < 0 → config ret = Except.error RsmpegError.ConfigurationInvalid) := by
  unfold config upgrade configErrKind
  constructor
  · intro h; simp [h]
  · intro h; simp [not_le.mpr h]

/-- Witness for C5 at the concrete statuses 0 and -22. -/
theorem config_outcomes_witness :
    config 0 = Except.ok () ∧
    config (-22) = Except.error RsmpegError.ConfigurationInvalid :=
  ⟨(config_outcomes 0).1 (by decide), (config_outcomes (-22)).2 (by decide)⟩

/-- C6: pushing into a source passes the frame pointer when a frame is
given and the null pointer when none is (end-of-stream), returns unit on a
nonnegative engine status, and maps every engine error to exactly the
BufferSrcAddFrameError kind. -/
theorem buffersrc_add_frame_flags_outcomes (ret : Int) (frame : Option AVFrame) :
    (buffersrc_add_frame_flags ret frame).passedPtr = frame.map (fun f => f.ptr) ∧
    (buffersrc_add_frame_flags ret none).passedPtr = none ∧
    (buffersrc_add_frame_flags ret frame).result =
      (if 0 ≤ ret then Except.ok ()
       else Except.error RsmpegError.BufferSrcAddFrameError) := by
  unfold buffersrc_add_frame_flags upgrade
  by_cases h : 0 ≤ ret <;> simp [h]

/-- C10: the by-value frame argument of buffersrc_add_frame_flags is
released exactly once when the call returns, on the success path and on the
error path alike; with no frame nothing is released. -/
theorem buffersrc_frame_released_once (ret : Int) (f : AVFrame) :
    (buffersrc_add_frame_flags ret (some f)).frees = [Event.freeFrame f.ptr] ∧
    ((buffersrc_add_frame_flags ret (some f)).frees.count (Event.freeFrame f.ptr)) = 1 ∧
    (buffersrc_add_frame_flags ret none).frees = [] := by
  unfold buffersrc_add_frame_flags upgrade AVFrame.dropEvents
  by_cases h : 0 ≤ ret <;> simp [h, List.count_singleton]

/-- C7: kind lookup succeeds exactly when the engine registry contains an
entry of that name, fails with FilterNotFound otherwise, and the returned
handle carries no release obligation (its Drop emits nothing). -/
theorem get_by_name_outcomes (registry : List (String × Ptr)) (name : String) :
    ((∃ p, get_by_name registry name = Except.ok p) ↔ ∃ p, (name, p) ∈ registry) ∧
    ((∀ p, (name, p) ∉ registry) →
      get_by_name registry name = Except.error RsmpegError.FilterNotFound) ∧
    AVFilter.dropEvents = [] := by
  refine ⟨?_, ?_, rfl⟩
  · unfold get_by_name avfilter_get_by_name
    constructor
    · rintro ⟨p, hp⟩
      rcases hfind : registry.find? (fun e => e.1 == name) with _ | e
      · rw [hfind] at hp; simp at hp
      · have hmem := List.mem_of_find?_eq_some hfind
        have hname : e.1 = name := by
          have := List.find?_some hfind
          simpa using this
        exact ⟨e.2, by rw [← hname]; exact hmem⟩
    · rintro ⟨p, hp⟩
      have hsome : (registry.find? (fun e => e.1 == name)).isSome := by
        rw [List.find?_isSome]
        exact ⟨(name, p), hp, by simp⟩
      rcases hfind : registry.find? (fun e => e.1 == name) with _ | e
      · rw [hfind] at hsome; simp at hsome
      · exact ⟨e.2, by rw [hfind]; rfl⟩
  · intro habs
    unfold get_by_name avfilter_get_by_name
    rcases hfind : registry.find? (fun e => e.1 == name) with _ | e
    · rw [hfind]; rfl
    · have hmem := List.mem_of_find?_eq_some hfind
      have hname : e.1 = name := by
        have := List.find?_some hfind
        simpa using this
      have hcontra : (name, e.2) ∈ registry := by rw [← hname]; exact hmem
      exact absurd hcontra (habs e.2)

/-- Witness for C7 on a two-entry registry: a registered name succeeds and
an unregistered name fails with FilterNotFound. -/
theorem get_by_name_outcomes_witness :
    (∃ p, get_by_name [("buffer", ⟨3⟩), ("scale", ⟨7⟩)] "scale" = Except.ok p) ∧
    get_by_name [("buffer", ⟨3⟩), ("scale", ⟨7⟩)] "overlay" =
      Except.error RsmpegError.FilterNotFound :=
  ⟨(get_by_name_outcomes [("buffer", ⟨3⟩), ("scale", ⟨7⟩)] "scale").1.mpr
      ⟨⟨7⟩, by decide⟩,
   (get_by_name_outcomes [("buffer", ⟨3⟩), ("scale", ⟨7⟩)] "overlay").2.1
      (by intro p hp; simp at hp)⟩

/-- C1: on parse success both by-value pad-list arguments are consumed —
the wrapper emits no release for either of them, ever again; on parse
failure each argument chain is released exactly once by the normal Drop
teardown of the by-value arguments (no leak, no double free). -/
theorem parse_ptr_pad_ownership (ni no : Option Ptr) (e : Int)
    (inputs outputs : AVFilterInOut) (hne : inputs.ptr ≠ outputs.ptr) :
    (parse_ptr (Except.ok (ni, no)) inputs outputs).frees = [] ∧
    ((parse_ptr (Except.error e) inputs outputs).frees.count
        (Event.freeInOut inputs.ptr)) = 1 ∧
    ((parse_ptr (Except.error e) inputs outputs).frees.count
        (Event.freeInOut outputs.ptr)) = 1 := by
  unfold parse_ptr AVFilterInOut.dropEvents
  refine ⟨rfl, ?_, ?_⟩ <;>
    simp [List.count_cons, List.count_singleton, hne, Ne.symm hne]

/-- Witness for C1 with two distinct concrete pad lists, covering the
success path and the failure path. -/
theorem parse_ptr_pad_ownership_witness :
    (parse_ptr (Except.ok (none, none)) ⟨⟨0⟩⟩ ⟨⟨1⟩⟩).frees = [] ∧
    ((parse_ptr (Except.error (-22)) ⟨⟨0⟩⟩ ⟨⟨1⟩⟩).frees.count
        (Event.freeInOut ⟨0⟩)) = 1 :=
  ⟨(parse_ptr_pad_ownership none none (-22) ⟨⟨0⟩⟩ ⟨⟨1⟩⟩ (by decide)).1,
   (parse_ptr_pad_ownership none none (-22) ⟨⟨0⟩⟩ ⟨⟨1⟩⟩ (by decide)).2.1⟩

/-- C8: a successful parse returns the unresolved input and output lists
the engine wrote back — absent exactly when the engine returned null,
otherwise the fresh engine-written head wrapped as a plain AVFilterInOut —
and every returned wrapper is caller-owned: its own Drop releases the chain
once. The wrapper type has no graph component, mirroring the source return
type, which carries no graph lifetime parameter. -/
theorem parse_ptr_returned_pads (ni no : Option Ptr)
    (inputs outputs : AVFilterInOut) :
    (parse_ptr (Except.ok (ni, no)) inputs outputs).result =
      Except.ok (ni.map AVFilterInOut.mk, no.map AVFilterInOut.mk) ∧
    (parse_ptr (Except.ok (none, no)) inputs outputs).result =
      Except.ok (none, no.map AVFilterInOut.mk) ∧
    (∀ p : Ptr, (AVFilterInOut.mk p).dropEvents = [Event.freeInOut p]) :=
  ⟨rfl, rfl, fun _ => rfl⟩

/-- C9: AVFilterInOut::new fills one list node whose name is a fresh
engine-owned duplicate of the caller string — present in the engine string
table after the call and absent from every entry before it, so the node has
no borrowed dependency on the caller string — whose node reference is the
given filter context at pad index 0, and whose next pointer is null. -/
theorem inout_new_fields (a : Alloc) (name : String) (fc : AVFilterContext)
    (hwf : a.wf) :
    (AVFilterInOut.new a name fc).1.pad_idx = 0 ∧
    (AVFilterInOut.new a name fc).1.next = none ∧
    (AVFilterInOut.new a name fc).1.filter_ctx = fc.ptr ∧
    ((AVFilterInOut.new a name fc).1.name, name) ∈
      (AVFilterInOut.new a name fc).2.2.strings ∧
    (∀ s, ((AVFilterInOut.new a name fc).1.name, s) ∉ a.strings) := by
  refine ⟨rfl, rfl, rfl, List.mem_cons_self _ _, ?_⟩
  intro s hmem
  have hlt := hwf _ hmem
  exact Nat.lt_irrefl a.next hlt

/-- Witness for C9 on the empty allocator: the filled node has pad index 0,
null next, the given context, and its name duplicate is in the engine
table. -/
theorem inout_new_fields_witness :
    (AVFilterInOut.new ⟨0, []⟩ "in" ⟨⟨9⟩⟩).1.pad_idx = 0 ∧
    (AVFilterInOut.new ⟨0, []⟩ "in" ⟨⟨9⟩⟩).1.next = none ∧
    (AVFilterInOut.new ⟨0, []⟩ "in" ⟨⟨9⟩⟩).1.filter_ctx = (⟨9⟩ : Ptr) ∧
    ((AVFilterInOut.new ⟨0, []⟩ "in" ⟨⟨9⟩⟩).1.name, "in") ∈
      (AVFilterInOut.new ⟨0, []⟩ "in" ⟨⟨9⟩⟩).2.2.strings :=
  ⟨(inout_new_fields ⟨0, []⟩ "in" ⟨⟨9⟩⟩ (by decide)).1,
   (inout_new_fields ⟨0, []⟩ "in" ⟨⟨9⟩⟩ (by decide)).2.1,
   (inout_new_fields ⟨0, []⟩ "in" ⟨⟨9⟩⟩ (by decide)).2.2.1,
   (inout_new_fields ⟨0, []⟩ "in" ⟨⟨9⟩⟩ (by decide)).2.2.2.1⟩

/-- C3 fails as stated: parse_ptr also takes a shared container reference
in the source and mutates the node table (it adds the filters of the parsed
segment), so node instantiation is not the only mutating shared-reference
operation. Concretely, a parse that created one node changes the empty
table while not being a createFilterContext operation. -/
theorem parse_also_mutates_counterexample :
    (SharedRefOp.parsePtrOp [⟨0⟩]).isCreate = false ∧
    applyOp [] (SharedRefOp.parsePtrOp [⟨0⟩]) ≠ [] := by
  decide

/-- Helper: each single shared-reference operation appends a possibly empty
block of nodes to the table. -/
theorem applyOp_append (g : Graph) (op : SharedRefOp) :
    ∃ t, applyOp g op = g ++ t := by
  cases op with
  | createFilterContext node =>
      cases node with
      | none => exact ⟨[], by simp [applyOp]⟩
      | some n => exact ⟨[n], rfl⟩
  | parsePtrOp nodes => exact ⟨nodes, rfl⟩
  | configOp => exact ⟨[], by simp [applyOp]⟩

/-- C3 amended: node instantiation and textual parsing both mutate the
container through a shared reference; every shared-reference operation only
appends to the node table (config appends nothing), so after any sequence
of operations the old table is an unchanged initial segment of the new one:
no previously returned node handle becomes invalid or changes identity,
and nodes are only ever added, never removed. -/
theorem graph_shared_ref_ops_append_only (g : Graph) (ops : List SharedRefOp) :
    (∃ t, applyOps g ops = g ++ t) ∧
    applyOp g SharedRefOp.configOp = g := by
  refine ⟨?_, rfl⟩
  induction ops generalizing g with
  | nil => exact ⟨[], by simp [applyOps]⟩
  | cons op ops ih =>
      obtain ⟨t1, ht1⟩ := applyOp_append g op
      obtain ⟨t2, ht2⟩ := ih (applyOp g op)
      refine ⟨t1 ++ t2, ?_⟩
      unfold applyOps at ht2 ⊢
      rw [List.foldl_cons, ht2, ht1, List.append_assoc]

/-- C4: a node handle holds the container borrow for its whole lifetime, so
in every reachable state of the borrow discipline a live handle implies the
container is still alive: no node handle can be used after the container it
was created from is destroyed. -/
theorem node_handle_never_outlives_graph (s : BorrowSt)
    (hr : BorrowReachable s) (h : Ptr) (hm : h ∈ s.liveHandles) :
    s.graphAlive = true := by
  by_contra hdead
  have hfalse : s.graphAlive = false := by
    cases hga : s.graphAlive
    · rfl
    · exact absurd hga hdead
  have hempty := borrow_invariant s hr hfalse
  rw [hempty] at hm
  simp at hm

/-- Witness for C4: after instantiating one handle from a fresh container,
the state is reachable, the handle is live and the container is alive. -/
theorem node_handle_never_outlives_graph_witness :
    ({ graphAlive := true, liveHandles := [⟨0⟩] } : BorrowSt).graphAlive = true :=
  node_handle_never_outlives_graph
    { graphAlive := true, liveHandles := [⟨0⟩] }
    (Relation.ReflTransGen.single (BorrowStep.create BorrowSt.init ⟨0⟩ rfl))
    ⟨0⟩ (List.mem_singleton.mpr rfl)

end Rsmpeg
